import Mathlib

/-!
Verification development for `imirunner.py`, a single-file EC2 orchestration
tool for running IMI (integrated methane inversion) jobs.  Python functions
are shallowly embedded as Lean definitions; external effects (the AWS API,
the ssh/scp/rsync channel, the filesystem) are passed in as explicit
parameters, and the definitions record which remote operations are attempted
and with which arguments.
-/

/-! ### Python string primitives used by the script -/

/-- Prefix test on char lists; used to model Python `str.startswith`. -/
def listIsPrefixOf : List Char → List Char → Bool
  | [], _ => true
  | _ :: _, [] => false
  | a :: as, b :: bs => a == b && listIsPrefixOf as bs

/-- Substring containment on char lists; models the Python `in` operator on `str`. -/
def listContainsSub (sub : List Char) : List Char → Bool
  | [] => sub.isEmpty
  | b :: bs => listIsPrefixOf sub (b :: bs) || listContainsSub sub bs

/-- Python `sub in s` substring test. -/
def strContains (s sub : String) : Bool := listContainsSub sub.data s.data

/-- Python `s.startswith(pre)`. -/
def pyStartswith (s pre : String) : Bool := listIsPrefixOf pre.data s.data

/-- Python whitespace characters recognised by `str.strip()`:
space, tab, newline, carriage return, vertical tab, form feed. -/
def pyIsSpace (c : Char) : Bool :=
  c == ' ' || c == Char.ofNat 9 || c == Char.ofNat 10 || c == Char.ofNat 13 ||
    c == Char.ofNat 11 || c == Char.ofNat 12

/-- Strip characters satisfying `p` from both ends of a char list
(maximal strip, as Python `str.strip` does for its character set). -/
def stripEnds (p : Char → Bool) (s : List Char) : List Char :=
  ((s.dropWhile p).reverse.dropWhile p).reverse

/-- Python `s.strip()` (no argument: strips whitespace). -/
def pyStrip (s : String) : String := String.mk (stripEnds pyIsSpace s.data)

/-- The two quote characters of the strip set applied to the RunName
value: double quote (34) and single quote (39). -/
def isQuoteChar (c : Char) : Bool := c == Char.ofNat 34 || c == Char.ofNat 39

/-- Python strip of surrounding quote characters, as applied to the RunName value. -/
def pyStripQuotes (s : String) : String := String.mk (stripEnds isQuoteChar s.data)

/-- ASCII lower-casing of one character (Python `str.lower` restricted to
the ASCII values that occur in UseSlurm fields). -/
def asciiLower (c : Char) : Char :=
  if 65 ≤ c.toNat ∧ c.toNat ≤ 90 then Char.ofNat (c.toNat + 32) else c

/-- Python `s.lower()`. -/
def pyLower (s : String) : String := String.mk (s.data.map asciiLower)

/-- Everything after the first colon of a char list; models the `[1]`
part of splitting the line once at its first colon, on a line that is
known to contain a colon. -/
def afterColonChars (s : List Char) : List Char :=
  (s.dropWhile (fun c => c != ':')).drop 1

/-- Python `os.path.basename`: the part after the last slash. -/
def pyBasename (s : String) : String :=
  String.mk ((s.data.reverse.takeWhile (fun c => c != '/')).reverse)

/-- Stem part of `os.path.splitext` on a basename: split at the last dot,
except that a run of leading dots never counts as an extension separator. -/
def stemChars (name : List Char) : List Char :=
  let lead := name.takeWhile (fun c => c == '.')
  let rest := name.drop lead.length
  if rest.contains '.' then
    lead ++ ((rest.reverse.dropWhile (fun c => c != '.')).drop 1).reverse
  else name

/-- The stem computation `os.path.splitext(os.path.basename(configfile))[0]`. -/
def configStem (configfile : String) : String :=
  String.mk (stemChars (pyBasename configfile).data)

/-- Python `os.path.join` for the cases arising here (second component
absolute replaces the first; otherwise a slash is inserted when needed). -/
def pyJoin (a b : String) : String :=
  if pyStartswith b "/" then b
  else if a = "" then b
  else if pyStartswith (String.mk a.data.reverse) "/" then a ++ b
  else a ++ "/" ++ b

/-! ### Instance directory: `get_instance` -/

/-- Raw per-instance data returned by the provider (`describe_instances`);
`publicDnsName` is `none` when the `PublicDnsName` key is absent, and
`launchTime` holds the already-formatted launch time string. -/
structure InstanceInfo where
  instanceId : String
  state : String
  publicDnsName : Option String
  instanceType : String
  launchTime : String
deriving DecidableEq, Repr

/-- One row of the listing built by `get_instance`. -/
structure ListedInstance where
  id : String
  state : String
  public_dns : String
  itype : String
  launch_time : String
deriving DecidableEq, Repr

/-- The two process-wide cached slots (`AWS_INSTANCE_ID`, `AWS_PUBLIC_URL`);
an unset environment variable is modelled as the empty string, matching the
truthiness checks `if not public_url` of the script. -/
structure Env where
  instance_id : String
  public_url : String
deriving DecidableEq, Repr

/-- The listing loop of `get_instance`: each raw instance becomes a row, with
the dictionary lookup of `PublicDnsName` defaulting an absent DNS name to the string `N/A`. -/
def buildListing (raw : List InstanceInfo) : List ListedInstance :=
  raw.map (fun i =>
    { id := i.instanceId, state := i.state,
      public_dns := i.publicDnsName.getD "N/A",
      itype := i.instanceType, launch_time := i.launchTime })

/-- Python list subscription `xs[i]` with an `int` index: non-negative
indices are direct, negative indices count from the end, and anything out of
range raises `IndexError`, modelled as `none`. -/
def pyGet {α : Type} (xs : List α) (i : Int) : Option α :=
  if 0 ≤ i then xs.get? i.toNat
  else if 0 ≤ i + (xs.length : Int) then xs.get? (i + (xs.length : Int)).toNat
  else none

/-- `get_instance`: lists instances, rejects an empty listing and any index
with `instance_no >= len(instances)`, then selects `instances[instance_no]`
(Python subscription, so negative indices wrap; a raised `IndexError` is
caught by the surrounding `except` and yields `None`).  On success both
cached slots are overwritten and the state string is returned; on every
failure path the slots are left unchanged. -/
def get_instance (raw : List InstanceInfo) (env : Env) (instance_no : Int) :
    Option String × Env :=
  if buildListing raw = [] then (none, env)
  else if ((buildListing raw).length : Int) ≤ instance_no then (none, env)
  else
    match pyGet (buildListing raw) instance_no with
    | none => (none, env)
    | some sel =>
        (some sel.state, { instance_id := sel.id, public_url := sel.public_dns })

/-! ### Setup executor: `instance_setup` -/

/-- The fixed remote bootstrap command list of `instance_setup`. -/
def setup_commands : List String :=
  ["sudo apt remove -y tmux",
   "chmod +x tmux_install.sh && ./tmux_install.sh",
   "chmod +x fixslurm.sh && ./fixslurm.sh"]

/-- The single remote command string built by `" && ".join(commands)`. -/
def setup_remote_command : String := String.intercalate " && " setup_commands

/-- Split a char list on a separator; the fuel argument (instantiated with
the list length, which always suffices) makes the recursion structural. -/
def splitOnAuxFuel (sep : List Char) : Nat → List Char → List (List Char)
  | 0, rest => [rest]
  | fuel + 1, s =>
    match s with
    | [] => [[]]
    | c :: cs =>
      if sep ≠ [] ∧ listIsPrefixOf sep s = true then
        [] :: splitOnAuxFuel sep fuel (s.drop sep.length)
      else
        match splitOnAuxFuel sep fuel cs with
        | [] => [[c]]
        | h :: t => (c :: h) :: t

/-- Split a char list on a (non-empty) separator char list. -/
def splitOnChars (sep s : List Char) : List (List Char) :=
  splitOnAuxFuel sep s.length s

/-- The simple-command units of a shell AND-list string, i.e. the commands
separated by the `&&` operator. -/
def shellAndUnits (s : String) : List String :=
  (splitOnChars (" && ").data s.data).map String.mk

/-- POSIX shell execution of an AND-list `c1 && c2 && ... && cn`: each
command runs only if the previous one succeeded.  `exec` gives each simple
outcome of each simple command; the result is the list of commands actually attempted,
in order. -/
def andListAttempted (exec : String → Bool) : List String → List String
  | [] => []
  | c :: rest => c :: (if exec c then andListAttempted exec rest else [])

/-! ### Readiness probe inside `create_instance` -/

/-- The ssh readiness loop of `create_instance`: up to `fuel` attempts
starting at attempt index `i`, short-circuiting on the first success
(`break` after setting `ssh_ready = True`). -/
def sshTry (outcome : Nat → Bool) : Nat → Nat → Bool
  | 0, _ => false
  | fuel + 1, i => outcome i || sshTry outcome fuel (i + 1)

/-- The `ssh_ready` flag after the `for _ in range(10)` probe loop. -/
def ssh_ready (outcome : Nat → Bool) : Bool := sshTry outcome 10 0

/-- Number of ssh attempts actually made by the probe loop (it stops at the
first success, otherwise exhausts the fuel). -/
def sshAttempts (outcome : Nat → Bool) : Nat → Nat → Nat
  | 0, _ => 0
  | fuel + 1, i => if outcome i then 1 else 1 + sshAttempts outcome fuel (i + 1)

/-- The distinct failure exits of `create_instance` after the instance has
launched: the provider waiter timing out (`WaiterError` from
`waiter.wait`), the probe raising
`Exception("SSH connection failed after 15 minutes")`, and
`Exception("Instance setup failed")`. -/
inductive CreateError
  | waiterTimeout
  | sshConnectFailed
  | setupFailed
deriving DecidableEq, Repr

/-- The exception message produced at each in-script raise site (the waiter
timeout message comes from the provider SDK, outside the script). -/
def CreateError.message : CreateError → Option String
  | .waiterTimeout => none
  | .sshConnectFailed => some "SSH connection failed after 15 minutes"
  | .setupFailed => some "Instance setup failed"

/-- The readiness portion of `create_instance`: the status waiter must
succeed, then the ssh probe loop must succeed within 10 attempts, then
`instance_setup` must report success. -/
def create_readiness (waiterOk : Bool) (outcome : Nat → Bool) (setupOk : Bool) :
    Except CreateError Unit :=
  if waiterOk then
    if ssh_ready outcome then
      if setupOk then .ok () else .error .setupFailed
    else .error .sshConnectFailed
  else .error .waiterTimeout

/-! ### Job dispatcher: `run_command` -/

/-- The early exits of `run_command` before any file transfer: the two
silent returns (no instance resolved, empty cached address) and the four
`sys.exit(1)` validation failures. -/
inductive RunError
  | noInstance
  | noPublicUrl
  | nameMismatch (stem value : String)
  | invalidUseSlurm (value : String)
  | slurmTmuxConflict
  | slurmNoTmuxConflict
deriving DecidableEq, Repr

/-- Process exit status of each early exit: the guard failures plainly
return from the function (no exit), the validation failures call
`sys.exit(1)`. -/
def RunError.exitCode : RunError → Option Nat
  | .noInstance => none
  | .noPublicUrl => none
  | .nameMismatch _ _ => some 1
  | .invalidUseSlurm _ => some 1
  | .slurmTmuxConflict => some 1
  | .slurmNoTmuxConflict => some 1

/-- Record of the remote phase of `run_command` when validation passed:
which transfers were attempted (`subprocess.run` of scp, whose exit status
is not checked), the ssh target and launch command, and the run name handed
to `tail_logfile`. -/
structure RunTrace where
  kalmanAttempted : Bool
  kalmanWarned : Bool
  configCopyAttempted : Bool
  configCopyExit : Nat
  sshTarget : String
  launchCmd : String
  launchAttempted : Bool
  tailRunName : String
deriving DecidableEq, Repr

/-- One iteration of the config scan loop: a `RunName:` line is compared
(after whitespace and quote stripping) against the filename stem, a
`UseSlurm:` line must read `true` or `false` after lower-casing, and any
other line is ignored. -/
def scanLine (stem : String) (st : Option String × Option Bool) (line : String) :
    Except RunError (Option String × Option Bool) :=
  if pyStartswith line "RunName:" = true then
    let v := pyStripQuotes (pyStrip (String.mk (afterColonChars line.data)))
    if v = stem then .ok (some v, st.2) else .error (.nameMismatch stem v)
  else if pyStartswith line "UseSlurm:" = true then
    let v := pyLower (pyStrip (String.mk (afterColonChars line.data)))
    if v = "true" then .ok (st.1, some true)
    else if v = "false" then .ok (st.1, some false)
    else .error (.invalidUseSlurm v)
  else .ok st

/-- The whole `for line in f` scan of the config file, starting from
`run_name = None`, `use_slurm = None`. -/
def scanConfig (stem : String) (lines : List String) :
    Except RunError (Option String × Option Bool) :=
  lines.foldlM (scanLine stem) (none, none)

/-- The `UseSlurm` versus `--tmux` consistency check; skipped entirely when
no `UseSlurm:` line was seen (`use_slurm is None`). -/
def validateSlurm (use_slurm : Option Bool) (tmux : Bool) : Except RunError Unit :=
  match use_slurm with
  | none => .ok ()
  | some true => if tmux then .error .slurmTmuxConflict else .ok ()
  | some false => if tmux then .ok () else .error .slurmNoTmuxConflict

/-- The remote execution command built by `run_command` (`\x27` is the
single-quote character of the tmux invocation). -/
def launch_cmd (tmux : Bool) (configfile opts : String) : String :=
  "cd /home/ubuntu/integrated_methane_inversion && " ++
    (if tmux then
      "tmux new-session -d -s imi \x27./run_imi.sh " ++ configfile ++ " " ++ opts ++
        " > imi_output.log\x27"
    else "sbatch run_imi.sh " ++ configfile ++ " " ++ opts)

/-- The remote phase of `run_command` once validation has passed: the
`KalmanPeriods.csv` copy is attempted only when the file exists locally
(otherwise a warning is logged), the config copy is attempted
unconditionally with its exit status recorded but never inspected, and the
launch command always runs. -/
def runRemotePhase (public_url : String) (configfile : String)
    (kalmanExists : Bool) (scpConfigExit : Nat) (options : Option String)
    (tmux : Bool) (rn : Option String) (stem : String) : RunTrace :=
  { kalmanAttempted := kalmanExists
    kalmanWarned := !kalmanExists
    configCopyAttempted := true
    configCopyExit := scpConfigExit
    sshTarget := "ubuntu@" ++ public_url
    launchCmd := launch_cmd tmux configfile (match options with | none => "" | some o => o)
    launchAttempted := true
    tailRunName := match rn with | none => stem | some v => if v = "" then stem else v }

/-- Validation-and-dispatch of `run_command` for an already resolved
address: empty-address guard, config scan, slurm/tmux consistency check,
then the remote phase. -/
def runResolved (env1 : Env) (configfile : String) (configLines : List String)
    (kalmanExists : Bool) (scpConfigExit : Nat) (options : Option String)
    (tmux : Bool) : Except RunError RunTrace :=
  if env1.public_url = "" then .error .noPublicUrl
  else
    match scanConfig (configStem configfile) configLines with
    | .error e => .error e
    | .ok (rn, us) =>
      match validateSlurm us tmux with
      | .error e => .error e
      | .ok _ =>
          .ok (runRemotePhase env1.public_url configfile kalmanExists
            scpConfigExit options tmux rn (configStem configfile))

/-- `run_command`: resolve the instance via `get_instance` (reading the
updated cached slots), then validate and dispatch.  `configLines` are the
lines of the local config file, `kalmanExists` the local existence of
`KalmanPeriods.csv`, and `scpConfigExit` the exit status the config `scp`
would return. -/
def run_command (raw : List InstanceInfo) (env : Env) (instance_no : Int)
    (configfile : String) (configLines : List String) (kalmanExists : Bool)
    (scpConfigExit : Nat) (options : Option String) (tmux : Bool) :
    Except RunError RunTrace :=
  match get_instance raw env instance_no with
  | (none, _) => .error .noInstance
  | (some _, env1) =>
      runResolved env1 configfile configLines kalmanExists scpConfigExit options tmux

/-- Projection used to state results about successful dispatches. -/
def runOk? (r : Except RunError RunTrace) : Option RunTrace :=
  match r with
  | .ok t => some t
  | .error _ => none

/-! ### Completion monitor: `tail_logfile` -/

/-- The sentinel test applied to every streamed line:
`"Posterior" in line or "IMI ended" in line`. -/
def isSentinelLine (line : String) : Bool :=
  strContains line "Posterior" || strContains line "IMI ended"

/-- Consumed lines and number of result-retrieval (`copy_to_local`) calls. -/
structure TailOutcome where
  consumed : List String
  retrievals : Nat
deriving DecidableEq, Repr

/-- The streaming loop of `tail_logfile` when a run name is present: each
line is echoed, and on the first sentinel match `copy_to_local` is called
once and the loop breaks, leaving the rest of the stream unread. -/
def tailLoop : List String → TailOutcome
  | [] => { consumed := [], retrievals := 0 }
  | line :: rest =>
    if isSentinelLine line = true then { consumed := [line], retrievals := 1 }
    else
      let r := tailLoop rest
      { consumed := line :: r.consumed, retrievals := r.retrievals }

/-- `tail_logfile`: resolves the instance first (returning silently when
that fails); with a run name it runs the sentinel-watching loop, without one
it streams the whole log with no completion action. -/
def tail_logfile (raw : List InstanceInfo) (env : Env) (instance_no : Int)
    (run_name : Option String) (stream : List String) : Option TailOutcome :=
  match get_instance raw env instance_no with
  | (none, _) => none
  | (some _, _) =>
    match run_name with
    | some _ => some (tailLoop stream)
    | none => some { consumed := stream, retrievals := 0 }

/-! ### Result retriever: `copy_to_local` -/

/-- The `while os.path.exists(local_dir)` suffix search of `copy_to_local`:
`ex` is local directory existence, `cur` the candidate name, `counter` the
next numeric suffix.  The source loop runs unboundedly until a free name is
found; the fuel argument bounds the recursion and is chosen large enough in
every concrete use. -/
def nameLoop (ex : String → Bool) (base : String) :
    Nat → String → Nat → Option String
  | 0, _, _ => none
  | fuel + 1, cur, counter =>
    if ex cur = true then
      nameLoop ex base fuel (base ++ "_" ++ toString counter) (counter + 1)
    else some cur

/-- Local result-directory choice of `copy_to_local`: with the overwrite
flag the base name is used unconditionally (the collision loop is skipped);
otherwise numeric suffixes `_1`, `_2`, ... are tried until a non-existing
name is found. -/
def chooseLocalDir (ex : String → Bool) (base : String) (overwrite : Bool)
    (fuel : Nat) : Option String :=
  if overwrite then some base else nameLoop ex base fuel base 1

/-- The fixed transfer manifest of `copy_to_local` for a run name: four
directories, two single files, one wildcard pattern and the renamed config
file, each paired with its local relation. -/
def transfer_items (run_name : String) : List (String × String) :=
  let remote_base := "/home/ubuntu/imi_output_dir/" ++ run_name
  [(remote_base ++ "/preview", "preview"),
   (remote_base ++ "/inversion", "inversion"),
   (remote_base ++ "/hemco_prior_emis", "hemco_prior_emis"),
   (remote_base ++ "/archive_sf", "archive_sf"),
   (remote_base ++ "/imi_output.log", ""),
   (remote_base ++ "/StateVector.nc", ""),
   (remote_base ++ "/*.yml", ""),
   (remote_base ++ "/config_" ++ run_name ++ ".yml", "config.yml")]

/-- The manifest loop of `copy_to_local`: every item is attempted in order;
a failing item (`fails it = true`, the per-item `except` branch) is logged
with a warning and the loop continues with the next item. -/
def copyItems (fails : String × String → Bool) :
    List (String × String) → List ((String × String) × Bool)
  | [] => []
  | it :: rest => (it, fails it) :: copyItems fails rest

/-- `copy_to_local`: resolve the instance and its address, choose the local
directory, then run the manifest loop and return the directory path together
with the per-item attempt record.  `localDataPath` is the configured local
data root, `ex` local directory existence, `fails` the per-item transfer
outcome. -/
def copy_to_local (raw : List InstanceInfo) (env : Env) (instance_no : Int)
    (run_name : String) (overwrite : Bool) (localDataPath : String)
    (ex : String → Bool) (fails : String × String → Bool) (fuel : Nat) :
    Option (String × List ((String × String) × Bool)) :=
  match get_instance raw env instance_no with
  | (none, _) => none
  | (some _, env1) =>
    if env1.public_url = "" then none
    else
      match chooseLocalDir ex (pyJoin localDataPath run_name) overwrite fuel with
      | none => none
      | some dir => some (dir, copyItems fails (transfer_items run_name))

/-! ### Concrete fixtures used to instantiate the provider and the cached
slots in the theorems below -/

/-- A single running instance with a public DNS name. -/
def inst1 : InstanceInfo :=
  { instanceId := "i-1", state := "running", publicDnsName := some "dns1",
    instanceType := "c5", launchTime := "2025-01-01 00:00:00" }

/-- A single running instance whose provider record carries no
`PublicDnsName` key. -/
def instNoDns : InstanceInfo :=
  { instanceId := "i-1", state := "running", publicDnsName := none,
    instanceType := "c5", launchTime := "2025-01-01 00:00:00" }

/-- Cached slots in their unset state. -/
def envEmpty : Env := { instance_id := "", public_url := "" }

/-- Cached slots holding a previous selection. -/
def envOld : Env := { instance_id := "old-id", public_url := "old-url" }

/-- The double-quote character, written by code point to build config values
that carry literal quotes. -/
def dq : String := String.mk [Char.ofNat 34]

/-! ### Claim C1: joining of the remote bootstrap commands -/

/-- Claim C1 is false as stated: the three bootstrap commands are joined
with the shell `&&` operator, so when the first command (the tmux package
removal) fails, the later commands of the same session are not attempted —
in particular `./fixslurm.sh`, which is one of the AND-list units, never
runs. -/
theorem claim_C1_counterexample :
    andListAttempted (fun c => !(c == "sudo apt remove -y tmux"))
        (shellAndUnits setup_remote_command) = ["sudo apt remove -y tmux"] ∧
    "./fixslurm.sh" ∈ shellAndUnits setup_remote_command := by decide

/-- Claim C1 (amended): the bootstrap commands are joined with `" && "`, so
the remote session is sequential fail-fast, not best-effort: whenever the
first command (the tmux package removal) fails, no later command of the
session is attempted. -/
theorem claim_C1_join_failfast (exec : String → Bool)
    (h : exec "sudo apt remove -y tmux" = false) :
    andListAttempted exec (shellAndUnits setup_remote_command) =
      ["sudo apt remove -y tmux"] := by
  have hu : shellAndUnits setup_remote_command =
      ["sudo apt remove -y tmux", "chmod +x tmux_install.sh", "./tmux_install.sh",
       "chmod +x fixslurm.sh", "./fixslurm.sh"] := by decide
  rw [hu]
  simp [andListAttempted, h]

/-- Witness for `claim_C1_join_failfast` at a concrete execution outcome. -/
theorem claim_C1_join_failfast_witness :
    ((fun _ => false) : String → Bool) "sudo apt remove -y tmux" = false ∧
    andListAttempted (fun _ => false) (shellAndUnits setup_remote_command) =
      ["sudo apt remove -y tmux"] :=
  ⟨rfl, claim_C1_join_failfast (fun _ => false) rfl⟩

/-! ### Claim C7: result-directory naming -/

/-- Claim C7: with the overwrite flag the base name `run1` is reused
unconditionally, whatever exists locally; without it, when `run1` exists the
chosen directory is `run1_1`, and when `run1` and `run1_1` both exist it is
`run1_2`. -/
theorem claim_C7_naming (ex : String → Bool) :
    chooseLocalDir ex "run1" true 100 = some "run1" ∧
    chooseLocalDir (fun s => s = "run1") "run1" false 100 = some "run1_1" ∧
    chooseLocalDir (fun s => s = "run1" ∨ s = "run1_1") "run1" false 100 =
      some "run1_2" :=
  ⟨rfl, by decide, by decide⟩

/-- Witness for `claim_C7_naming` at a concrete existence predicate. -/
theorem claim_C7_naming_witness :
    chooseLocalDir (fun _ => true) "run1" true 100 = some "run1" :=
  (claim_C7_naming (fun _ => true)).1

/-! ### Claim C10: the `N/A` placeholder address -/

/-- Claim C10: when the provider record has no public DNS name,
`get_instance` caches the literal string `N/A` in the address slot, and
`run_command`, whose guard only rejects an empty address, proceeds to
dispatch against the target `ubuntu@N/A`. -/
theorem claim_C10_na_address :
    get_instance [instNoDns] envEmpty 0 =
      (some "running", { instance_id := "i-1", public_url := "N/A" }) ∧
    (runOk? (run_command [instNoDns] envEmpty 0 "run1.yml" ["RunName: run1"]
        true 0 none true)).map (fun t => (t.sshTarget, t.launchAttempted)) =
      some ("ubuntu@N/A", true) := by decide

/-! ### Claim C2: the config-file transfer does not propagate failure -/

/-- Claim C2 is false as stated: the config `scp` is run without checking
its exit status, so a failed transfer (exit status 1) does not propagate —
the dispatch still proceeds to the launch command. -/
theorem claim_C2_counterexample :
    (runOk? (run_command [inst1] envEmpty 0 "run1.yml" ["RunName: run1"]
        true 1 none true)).map (fun t => (t.configCopyExit, t.launchAttempted)) =
      some (1, true) := by decide

/-- Claim C2 (amended): the config copy is required only in the sense that
it is attempted unconditionally (no local-existence guard), unlike the
auxiliary `KalmanPeriods.csv` copy, which is skipped with a warning when the
file is absent; the exit status of the config transfer is never inspected, so a
failing transfer does not propagate and the launch is still attempted. -/
theorem claim_C2_config_copy (scpExit : Nat) (kalman : Bool) :
    (runOk? (run_command [inst1] envEmpty 0 "run1.yml" ["RunName: run1"]
        kalman scpExit none true)).map
        (fun t => (t.configCopyAttempted, t.kalmanAttempted, t.kalmanWarned,
          t.launchAttempted)) = some (true, kalman, !kalman, true) := by
  cases kalman <;> rfl

/-- Witness for `claim_C2_config_copy` at a failing transfer with the
schedule file absent. -/
theorem claim_C2_config_copy_witness :
    (runOk? (run_command [inst1] envEmpty 0 "run1.yml" ["RunName: run1"]
        false 1 none true)).map
        (fun t => (t.configCopyAttempted, t.kalmanAttempted, t.kalmanWarned,
          t.launchAttempted)) = some (true, false, true, true) :=
  claim_C2_config_copy 1 false

/-! ### Claim C3: index validation in `get_instance` -/

/-- Claim C3 is false as stated: the index `-1` is outside `0 <= index <
count`, yet against a one-instance listing `get_instance` returns the
state of the instance and overwrites both cached slots (Python subscription wraps
negative indices around). -/
theorem claim_C3_counterexample :
    get_instance [inst1] envOld (-1) =
      (some "running", { instance_id := "i-1", public_url := "dns1" }) ∧
    ({ instance_id := "i-1", public_url := "dns1" } : Env) ≠ envOld := by decide

/-- Claim C3 (amended): `get_instance` rejects the empty listing, every
index at or above the count, and every index below `-count`, leaving the
cached slots untouched; but an index in `[-count, -1]` wraps around
Python-style, selects an instance, returns its state and overwrites both
slots. -/
theorem claim_C3_index_validation (raw : List InstanceInfo) (env : Env) (i : Int) :
    ((raw = [] ∨ (raw.length : Int) ≤ i ∨ i + (raw.length : Int) < 0) →
      get_instance raw env i = (none, env)) ∧
    (0 ≤ i + (raw.length : Int) → i < (raw.length : Int) →
      ∃ sel, pyGet (buildListing raw) i = some sel ∧
        get_instance raw env i =
          (some sel.state, { instance_id := sel.id, public_url := sel.public_dns })) := by
  have hlen : (buildListing raw).length = raw.length := List.length_map _ _
  constructor
  · rintro (h | h | h)
    · subst h; rfl
    · unfold get_instance
      by_cases he : buildListing raw = []
      · rw [if_pos he]
      · rw [if_neg he, if_pos (by rw [hlen]; exact h)]
    · unfold get_instance
      by_cases he : buildListing raw = []
      · rw [if_pos he]
      · rw [if_neg he, if_neg (by rw [hlen]; omega)]
        have hpg : pyGet (buildListing raw) i = none := by
          unfold pyGet
          rw [if_neg (by omega), if_neg (by rw [hlen]; omega)]
        rw [hpg]
  · intro h0 h1
    have hlpos : 0 < raw.length := by omega
    have he : buildListing raw ≠ [] := by
      intro hemp
      rw [← hlen, hemp] at hlpos
      simp at hlpos
    by_cases hi : 0 ≤ i
    · have hn : i.toNat < (buildListing raw).length := by rw [hlen]; omega
      have hpg : pyGet (buildListing raw) i =
          some ((buildListing raw).get ⟨i.toNat, hn⟩) := by
        unfold pyGet
        rw [if_pos hi]
        exact List.get?_eq_get hn
      refine ⟨(buildListing raw).get ⟨i.toNat, hn⟩, hpg, ?_⟩
      unfold get_instance
      rw [if_neg he, if_neg (by rw [hlen]; omega), hpg]
    · have hn : (i + ((buildListing raw).length : Int)).toNat <
          (buildListing raw).length := by rw [hlen]; omega
      have hpg : pyGet (buildListing raw) i =
          some ((buildListing raw).get ⟨(i + ((buildListing raw).length : Int)).toNat, hn⟩) := by
        unfold pyGet
        rw [if_neg hi, if_pos (by rw [hlen]; omega)]
        exact List.get?_eq_get hn
      refine ⟨(buildListing raw).get ⟨(i + ((buildListing raw).length : Int)).toNat, hn⟩, hpg, ?_⟩
      unfold get_instance
      rw [if_neg he, if_neg (by rw [hlen]; omega), hpg]

/-- Witness for `claim_C3_index_validation`: an in-range index 0 selects the
single instance; index 5 is rejected without touching the slots. -/
theorem claim_C3_index_validation_witness :
    get_instance [inst1] envOld 5 = (none, envOld) ∧
    ∃ sel, pyGet (buildListing [inst1]) 0 = some sel ∧
      get_instance [inst1] envOld 0 =
        (some sel.state, { instance_id := sel.id, public_url := sel.public_dns }) :=
  ⟨(claim_C3_index_validation [inst1] envOld 5).1 (Or.inr (Or.inl (by decide))),
   (claim_C3_index_validation [inst1] envOld 0).2 (by decide) (by decide)⟩

/-! ### Claim C4: RunName versus filename-stem validation -/

/-- Claim C4 is false as stated: the config file `run1.yml` declaring
`RunName: "run1"` (value written with literal double quotes) has a declared
value distinct from the stem `run1`, yet validation passes — the comparison
happens only after stripping surrounding whitespace and quote characters —
and the dispatch proceeds to the launch. -/
theorem claim_C4_counterexample :
    pyStrip (String.mk (afterColonChars ("RunName: " ++ (dq ++ "run1" ++ dq)).data)) =
      dq ++ "run1" ++ dq ∧
    (dq ++ "run1" ++ dq) ≠ configStem "run1.yml" ∧
    (runOk? (run_command [inst1] envEmpty 0 "run1.yml"
        ["RunName: " ++ (dq ++ "run1" ++ dq)] true 0 none true)).map
        (fun t => t.launchAttempted) = some true := by decide

/-- Scanning a `RunName:` line reduces to comparing the whitespace- and
quote-stripped value against the stem. -/
theorem scanLine_runName (stem : String) (st : Option String × Option Bool)
    (v : String) :
    scanLine stem st ("RunName: " ++ v) =
      (if pyStripQuotes (pyStrip v) = stem then
        .ok (some (pyStripQuotes (pyStrip v)), st.2)
       else .error (.nameMismatch stem (pyStripQuotes (pyStrip v)))) := by
  obtain ⟨vd⟩ := v
  rfl

/-- A one-line scan is a single `scanLine` step. -/
theorem scanConfig_single (stem line : String) :
    scanConfig stem [line] = scanLine stem (none, none) line := by
  unfold scanConfig
  cases hl : scanLine stem (none, none) line <;>
    simp [List.foldlM, hl]

/-- Claim C4 (amended): validation compares the declared value only after
stripping surrounding whitespace and quote characters; whenever that
stripped value differs from the filename stem, `run_command` exits the
process with status 1 before any remote transfer, but declared values that
differ from the stem only by surrounding whitespace or quotes pass. -/
theorem claim_C4_name_validation (configfile v : String)
    (h : pyStripQuotes (pyStrip v) ≠ configStem configfile) :
    run_command [inst1] envEmpty 0 configfile ["RunName: " ++ v] true 0 none true =
      .error (.nameMismatch (configStem configfile) (pyStripQuotes (pyStrip v))) ∧
    RunError.exitCode
        (.nameMismatch (configStem configfile) (pyStripQuotes (pyStrip v))) =
      some 1 := by
  constructor
  · show runResolved { instance_id := "i-1", public_url := "dns1" } configfile
        ["RunName: " ++ v] true 0 none true = _
    unfold runResolved
    rw [if_neg (by decide), scanConfig_single, scanLine_runName, if_neg h]
  · rfl

/-- Witness for `claim_C4_name_validation` at a genuinely different name. -/
theorem claim_C4_name_validation_witness :
    pyStripQuotes (pyStrip " other ") ≠ configStem "run1.yml" ∧
    run_command [inst1] envEmpty 0 "run1.yml" ["RunName:  other "] true 0 none true =
      .error (.nameMismatch (configStem "run1.yml")
        (pyStripQuotes (pyStrip " other "))) :=
  ⟨by decide, (claim_C4_name_validation "run1.yml" " other " (by decide)).1⟩

/-! ### Claim C9: absent `UseSlurm:` line skips mode validation -/

/-- A scan step on a line that is not a `UseSlurm:` line leaves the
`use_slurm` component of the state unchanged. -/
theorem scanLine_preserves_slurm (stem : String) (st : Option String × Option Bool)
    (line : String) (h : pyStartswith line "UseSlurm:" = false)
    (st' : Option String × Option Bool)
    (hok : scanLine stem st line = .ok st') : st'.2 = st.2 := by
  unfold scanLine at hok
  by_cases hr : pyStartswith line "RunName:" = true
  · rw [if_pos hr] at hok
    by_cases hv : pyStripQuotes (pyStrip (String.mk (afterColonChars line.data))) = stem
    · rw [if_pos hv] at hok
      injection hok with h2
      rw [← h2]
    · rw [if_neg hv] at hok
      exact Except.noConfusion hok
  · rw [if_neg hr, if_neg (by simp [h])] at hok
    injection hok with h2
    rw [← h2]

/-- Over any run of lines none of which starts with `UseSlurm:`, a
successful scan keeps the `use_slurm` component of its starting state. -/
theorem scanFold_slurm (stem : String) :
    ∀ (lines : List String), (∀ l ∈ lines, pyStartswith l "UseSlurm:" = false) →
      ∀ (st : Option String × Option Bool) (rn : Option String) (us : Option Bool),
        List.foldlM (scanLine stem) st lines = .ok (rn, us) → us = st.2 := by
  intro lines
  induction lines with
  | nil =>
    intro _ st rn us hf
    simp only [List.foldlM_nil] at hf
    injection hf with h2
    rw [h2]
  | cons l ls ih =>
    intro h st rn us hf
    simp only [List.foldlM_cons] at hf
    cases hsc : scanLine stem st l with
    | error e =>
      rw [hsc] at hf
      exact Except.noConfusion hf
    | ok st' =>
      rw [hsc] at hf
      have h1 : us = st'.2 :=
        ih (fun x hx => h x (List.mem_cons_of_mem l hx)) st' rn us hf
      rw [h1]
      exact scanLine_preserves_slurm stem st l (h l (List.mem_cons_self l ls)) st' hsc

/-- Claim C9: when no line of the config starts with `UseSlurm:`,
`use_slurm` stays unset, the mode-consistency check is skipped entirely, and
`run_command` proceeds to the transfers and launches with exactly the style
the caller requested (tmux session when `tmux`, batch submission
otherwise) — the two styles producing different remote commands. -/
theorem claim_C9_no_useslurm (lines : List String) (rn : Option String)
    (us : Option Bool) (tmux : Bool)
    (h1 : ∀ l ∈ lines, pyStartswith l "UseSlurm:" = false)
    (h2 : scanConfig (configStem "run1.yml") lines = .ok (rn, us)) :
    us = none ∧
    (runOk? (run_command [inst1] envEmpty 0 "run1.yml" lines true 0 none tmux)).map
        (fun t => (t.launchAttempted, t.configCopyAttempted, t.launchCmd)) =
      some (true, true, launch_cmd tmux "run1.yml" "") ∧
    launch_cmd true "run1.yml" "" ≠ launch_cmd false "run1.yml" "" := by
  have hus : us = none := by
    have := scanFold_slurm (configStem "run1.yml") lines h1 (none, none) rn us h2
    simpa using this
  subst hus
  refine ⟨rfl, ?_, by decide⟩
  have hrc : run_command [inst1] envEmpty 0 "run1.yml" lines true 0 none tmux =
      runResolved { instance_id := "i-1", public_url := "dns1" } "run1.yml"
        lines true 0 none tmux := rfl
  rw [hrc]
  unfold runResolved
  rw [if_neg (by decide), h2]
  rfl

/-- Witness for `claim_C9_no_useslurm` on a config that declares only the
run name. -/
theorem claim_C9_no_useslurm_witness :
    (runOk? (run_command [inst1] envEmpty 0 "run1.yml" ["RunName: run1"]
        true 0 none true)).map
        (fun t => (t.launchAttempted, t.configCopyAttempted, t.launchCmd)) =
      some (true, true, launch_cmd true "run1.yml" "") :=
  (claim_C9_no_useslurm ["RunName: run1"] (some "run1") none true
    (by decide) (by rfl)).2.1

/-! ### Claim C5: sentinel detection in `tail_logfile` -/

/-- A stream without any sentinel line is consumed in full and triggers no
retrieval. -/
theorem tailLoop_no_sentinel (stream : List String)
    (h : ∀ l ∈ stream, isSentinelLine l = false) :
    tailLoop stream = { consumed := stream, retrievals := 0 } := by
  induction stream with
  | nil => rfl
  | cons l ls ih =>
    have hl : isSentinelLine l = false := h l (List.mem_cons_self l ls)
    have hls := ih (fun x hx => h x (List.mem_cons_of_mem l hx))
    simp [tailLoop, hl, hls]

/-- The loop consumes exactly up to and including the first sentinel line
and triggers exactly one retrieval, leaving the rest of the stream
unread. -/
theorem tailLoop_first_sentinel (pre : List String) (line : String)
    (post : List String) (hpre : ∀ l ∈ pre, isSentinelLine l = false)
    (hline : isSentinelLine line = true) :
    tailLoop (pre ++ line :: post) = { consumed := pre ++ [line], retrievals := 1 } := by
  induction pre with
  | nil => simp [tailLoop, hline]
  | cons p ps ih =>
    have hp : isSentinelLine p = false := hpre p (List.mem_cons_self p ps)
    have hps := ih (fun x hx => hpre x (List.mem_cons_of_mem p hx))
    simp [tailLoop, hp, hps]

/-- Claim C5: invoked with a run name, `tail_logfile` on a stream whose
first sentinel line (containing `Posterior` or `IMI ended`) sits after a
sentinel-free prefix triggers exactly one retrieval and consumes nothing
after that line; on a stream with no sentinel line it never triggers a
retrieval. -/
theorem claim_C5_completion (pre post stream2 : List String) (line rn : String)
    (h1 : ∀ l ∈ pre, isSentinelLine l = false) (h2 : isSentinelLine line = true)
    (h3 : ∀ l ∈ stream2, isSentinelLine l = false) :
    tail_logfile [inst1] envEmpty 0 (some rn) (pre ++ line :: post) =
      some { consumed := pre ++ [line], retrievals := 1 } ∧
    tail_logfile [inst1] envEmpty 0 (some rn) stream2 =
      some { consumed := stream2, retrievals := 0 } := by
  constructor
  · show some (tailLoop (pre ++ line :: post)) = _
    rw [tailLoop_first_sentinel pre line post h1 h2]
  · show some (tailLoop stream2) = _
    rw [tailLoop_no_sentinel stream2 h3]

/-- Witness for `claim_C5_completion` on concrete streams: the sentinel
stream stops after `x Posterior y`, leaving two further lines unread; the
sentinel-free stream yields no retrieval. -/
theorem claim_C5_completion_witness :
    tail_logfile [inst1] envEmpty 0 (some "run1")
        (["a"] ++ "x Posterior y" :: ["b", "c"]) =
      some { consumed := ["a", "x Posterior y"], retrievals := 1 } ∧
    tail_logfile [inst1] envEmpty 0 (some "run1") ["a", "b"] =
      some { consumed := ["a", "b"], retrievals := 0 } :=
  claim_C5_completion ["a"] ["b", "c"] ["a", "b"] "x Posterior y" "run1"
    (by decide) (by decide) (by decide)

/-! ### Claim C6: readiness probe retry loop -/

/-- Claim C6: when the handshake fails on attempts 1 through 9 and succeeds
on attempt 10, the probe makes exactly 10 attempts and `create_instance`
reaches setup and succeeds; when all 10 attempts fail it raises the ssh
connectivity failure, a failure distinct (as an exit and by message) from
the provider status-check timeout. -/
theorem claim_C6_probe (outcome1 outcome2 : Nat → Bool)
    (h1 : ∀ i, i < 9 → outcome1 i = false) (h2 : outcome1 9 = true)
    (h3 : ∀ i, i < 10 → outcome2 i = false) :
    create_readiness true outcome1 true = .ok () ∧
    sshAttempts outcome1 10 0 = 10 ∧
    create_readiness true outcome2 true = .error .sshConnectFailed ∧
    CreateError.sshConnectFailed ≠ CreateError.waiterTimeout ∧
    CreateError.message .sshConnectFailed ≠ CreateError.message .waiterTimeout := by
  have r1 : ssh_ready outcome1 = true := by
    simp [ssh_ready, sshTry, h2, h1 0 (by omega), h1 1 (by omega), h1 2 (by omega),
      h1 3 (by omega), h1 4 (by omega), h1 5 (by omega), h1 6 (by omega),
      h1 7 (by omega), h1 8 (by omega)]
  have r2 : ssh_ready outcome2 = false := by
    simp [ssh_ready, sshTry, h3 0 (by omega), h3 1 (by omega), h3 2 (by omega),
      h3 3 (by omega), h3 4 (by omega), h3 5 (by omega), h3 6 (by omega),
      h3 7 (by omega), h3 8 (by omega), h3 9 (by omega)]
  refine ⟨by simp [create_readiness, r1], ?_, by simp [create_readiness, r2],
    by decide, by decide⟩
  simp [sshAttempts, h2, h1 0 (by omega), h1 1 (by omega), h1 2 (by omega),
    h1 3 (by omega), h1 4 (by omega), h1 5 (by omega), h1 6 (by omega),
    h1 7 (by omega), h1 8 (by omega)]

/-- Witness for `claim_C6_probe` at concrete outcome functions. -/
theorem claim_C6_probe_witness :
    create_readiness true (fun i => i == 9) true = .ok () ∧
    sshAttempts (fun i => i == 9) 10 0 = 10 ∧
    create_readiness true (fun _ => false) true = .error .sshConnectFailed :=
  have h := claim_C6_probe (fun i => i == 9) (fun _ => false)
    (by intro i hi; simp; omega) (by decide) (fun i _ => rfl)
  ⟨h.1, h.2.1, h.2.2.1⟩

/-! ### Claim C8: manifest transfer isolation in `copy_to_local` -/

/-- The manifest loop attempts exactly the given items, in order, whatever
the per-item outcomes. -/
theorem copyItems_fst (fails : String × String → Bool)
    (l : List (String × String)) : (copyItems fails l).map Prod.fst = l := by
  induction l with
  | nil => rfl
  | cons it rest ih => simp [copyItems, ih]

/-- Claim C8: whatever subset of the 8 manifest items fails (in particular
any single one), every item is still attempted in order and `copy_to_local`
still returns the chosen local directory path. -/
theorem claim_C8_isolation (fails : String × String → Bool) :
    (copy_to_local [inst1] envEmpty 0 "run1" false "/data" (fun _ => false)
        fails 100).map (fun p => (p.1, p.2.map Prod.fst, p.2.length)) =
      some ("/data/run1", transfer_items "run1", 8) := by
  have hf : (copyItems fails (transfer_items "run1")).map Prod.fst =
      transfer_items "run1" := copyItems_fst fails (transfer_items "run1")
  have hl : (copyItems fails (transfer_items "run1")).length = 8 := by
    have := congrArg List.length hf
    simpa using this
  show some ("/data/run1", (copyItems fails (transfer_items "run1")).map Prod.fst,
      (copyItems fails (transfer_items "run1")).length) = _
  rw [hf, hl]

/-- Witness for `claim_C8_isolation` at the worst outcome: every item
fails, yet all are attempted and the directory path is still returned. -/
theorem claim_C8_isolation_witness :
    (copy_to_local [inst1] envEmpty 0 "run1" false "/data" (fun _ => false)
        (fun _ => true) 100).map (fun p => (p.1, p.2.map Prod.fst, p.2.length)) =
      some ("/data/run1", transfer_items "run1", 8) :=
  claim_C8_isolation (fun _ => true)
